import Mathlib

/-!
Shallow embedding of `src/lib/src/prediction.rs` (crate `cog-rust`): the job
state machine `Prediction`, the scoped guard `SyncGuard`, and the
`Request`/`Response` models, together with the sequential traces generated by
the public operations.

Modelling conventions:
* `serde_json::Value` is an opaque JSON tree (`Value` below).
* `chrono::DateTime<Utc>` timestamps are natural numbers; `Utc::now()` becomes
  an explicit `now` parameter on the constructors that call it.
* `std::time::Duration` is a rational number of seconds, so
  `Duration::as_secs_f64` is the identity.
* The unbounded flume cancellation channel is modelled by the number of
  pending `()` messages (`cancelQueue`); `send` increments it.  `reset` does
  not touch it, exactly as in the source.
* The bounded(1) completion channel is a `CompleteChan`: a `disconnected` flag
  and a one-slot `buffer`.
* The future returned by `process` is recorded in the ghost field
  `pendingRun` (the request it captured); driving it is the `Op.drive` step.
* The execution engine (`Runner`) is external (spec §6): `validate` and `run`
  outcomes are parameters of `process` / `Op.drive`.
-/

namespace CogRust

/-- Opaque JSON-like value standing for `serde_json::Value`. -/
inductive Value where
| null : Value
| bool (b : Bool) : Value
| num (q : ℚ) : Value
| str (s : String) : Value
| arr (xs : List Value) : Value
| obj (fields : List (String × Value)) : Value

/-- `Status` enum from `prediction.rs` (lines 20-29). -/
inductive Status where
| Idle : Status
| Failed : Status
| Starting : Status
| Canceled : Status
| Succeeded : Status
| Processing : Status
deriving DecidableEq, Repr

/-- Modelled from the spec: `ValidationErrorSet` lives in `crate::errors`,
which is not under `src/`.  Per spec §6/§7 it carries a structured set of
field-level errors, and `fill_loc` annotates them with a location path before
they are surfaced. -/
structure ValidationErrorSet where
  errors : List String
  loc : List String
deriving DecidableEq, Repr

/-- Modelled from the spec: `fill_loc` annotates the error set with the given
location path. -/
def ValidationErrorSet.fill_loc (e : ValidationErrorSet) (loc : List String) :
    ValidationErrorSet :=
  { e with loc := loc }

/-- Modelled from the spec: `runner::Error` (`RunnerError`) is not under
`src/`; per spec §6 it distinguishes `Canceled` from all other failures, which
carry a human-readable message. -/
inductive RunnerError where
| Canceled : RunnerError
| Other (msg : String) : RunnerError
deriving DecidableEq, Repr

/-- Textual form of a runner error (`error.to_string()` in the source). -/
def RunnerError.toMessage : RunnerError → String
| .Canceled => "Prediction was canceled"
| .Other msg => msg

/-- `Error` enum from `prediction.rs` (lines 33-49). -/
inductive Error where
| AlreadyRunning : Error
| NotComplete : Error
| Unknown : Error
| ReceiverError : Error
| Validation (errs : ValidationErrorSet) : Error
deriving DecidableEq, Repr

/-- `WebhookEvent` from `prediction.rs` (lines 224-230). -/
inductive WebhookEvent where
| Start : WebhookEvent
| Output : WebhookEvent
| Logs : WebhookEvent
| Completed : WebhookEvent
deriving DecidableEq, Repr

/-- `Request` from `prediction.rs` (lines 232-239), with `T = Value` and URLs
as strings. -/
structure Request where
  webhook : Option String
  webhook_event_filters : Option (List WebhookEvent)
  output_file_prefix : Option String
  input : Value

/-- `Response` from `prediction.rs` (lines 241-258), with both type
parameters at `Value`, timestamps as `ℕ` and `metrics` as an association
list. -/
structure Response where
  input : Option Value
  output : Option Value
  id : Option String
  version : Option String
  created_at : Option ℕ
  started_at : Option ℕ
  completed_at : Option ℕ
  logs : String
  status : Status
  error : Option String
  metrics : Option (List (String × Value))

/-- `impl Default for Response` (lines 297-313).  The source calls
`Utc::now()` for `started_at` and `completed_at`; the call instant is the
explicit parameter `now`. -/
def Response.default (now : ℕ) : Response :=
  { id := none
    error := none
    input := none
    output := none
    metrics := none
    version := none
    created_at := none
    logs := ""
    status := .Starting
    started_at := some now
    completed_at := some now }

/-- `Response::success` (lines 261-277): `predict_time.as_secs_f64()` is the
rational `predict_time` itself. -/
def Response.success (id : Option String) (req : Request) (output : Value)
    (predict_time : ℚ) (now : ℕ) : Response :=
  { Response.default now with
    id := id
    output := some output
    input := some req.input
    status := .Succeeded
    metrics := some [("predict_time", Value.num predict_time)] }

/-- `Response::error` (lines 278-286); named `error'` because `error` is the
field projection. -/
def Response.error' (id : Option String) (req : Request) (e : RunnerError)
    (now : ℕ) : Response :=
  { Response.default now with
    id := id
    input := some req.input
    status := .Failed
    error := some e.toMessage }

/-- `Response::canceled` (lines 287-294). -/
def Response.canceled (id : Option String) (req : Request) (now : ℕ) :
    Response :=
  { Response.default now with
    id := id
    input := some req.input
    status := .Canceled }

/-- State of the bounded(1) completion channel held in `Prediction.complete`:
whether the sending side has been dropped, and the single buffered slot. -/
structure CompleteChan where
  disconnected : Bool
  buffer : Option Response

/-- The `Prediction` struct (lines 51-60).  `runner` and `shutdown` are
external collaborators and enter the model as operation parameters; `cancel`
(the flume sender) is modelled by the count of pending messages
`cancelQueue`; `pendingRun` is the ghost record of the not-yet-driven future
returned by `process` (the request it captured). -/
structure Prediction where
  status : Status
  id : Option String
  request : Option Request
  cancelQueue : ℕ
  response : Option Response
  complete : Option CompleteChan
  pendingRun : Option Request

/-- `Prediction::setup` (lines 63-76): fresh idle slot, fresh (empty)
cancellation channel. -/
def Prediction.setup : Prediction :=
  { status := .Idle
    id := none
    request := none
    cancelQueue := 0
    response := none
    complete := none
    pendingRun := none }

/-- `Prediction::init` (lines 78-88). -/
def Prediction.init (p : Prediction) (id : Option String) (req : Request) :
    Except Error Prediction :=
  if p.status ≠ .Idle then
    .error .AlreadyRunning
  else
    .ok { p with id := id, request := some req, status := .Starting }

/-- `Prediction::reset` (lines 185-191).  Note: `cancelQueue` is untouched —
the source never recreates or drains the cancellation channel. -/
def Prediction.reset (p : Prediction) : Prediction :=
  { p with
    id := none
    request := none
    response := none
    complete := none
    status := .Idle
    pendingRun := none }

/-- `Prediction::result` (lines 159-168).  The guard accepts only
`Succeeded | Failed`. -/
def Prediction.result (p : Prediction) : Except Error (Response × Prediction) :=
  if p.status = .Succeeded ∨ p.status = .Failed then
    match p.response with
    | some r => .ok (r, p.reset)
    | none => .error .NotComplete
  else
    .error .NotComplete

/-- `Prediction::cancel` (lines 170-183): sends on the cancellation channel
and eagerly marks the status `Canceled`. -/
def Prediction.cancel (p : Prediction) (id : String) : Except Error Prediction :=
  if p.id ≠ some id then
    .error .Unknown
  else if p.status ≠ .Processing then
    .error .AlreadyRunning
  else
    .ok { p with cancelQueue := p.cancelQueue + 1, status := .Canceled }

/-- Fallback used to model `self.request.clone().unwrap()`; never relevant on
reachable states, where `Starting` implies a stored request. -/
def defaultRequest : Request :=
  { webhook := none
    webhook_event_filters := none
    output_file_prefix := none
    input := .null }

/-- Synchronous part of `Prediction::process` (lines 118-132): status guard,
engine validation (outcome supplied by the external engine), transition to
`Processing` and creation of the fresh completion channel.  The returned state
records the future (its captured request) in `pendingRun`. -/
def Prediction.process (p : Prediction)
    (validation : Except ValidationErrorSet Unit) : Except Error Prediction :=
  if p.status ≠ .Starting then
    .error .AlreadyRunning
  else
    match validation with
    | .error e => .error (.Validation (e.fill_loc ["body", "input"]))
    | .ok _ =>
      let req := p.request.getD defaultRequest
      .ok { p with
        status := .Processing
        complete := some { disconnected := false, buffer := none }
        pendingRun := some req }

/-- Outcome of the `tokio::select!` race inside the future returned by
`process` (lines 133-156): either the shutdown signal fires first, or the
engine run completes with a result. -/
inductive RaceOutcome where
| shutdown : RaceOutcome
| engine (result : Except RunnerError (Value × ℚ)) : RaceOutcome

/-- The future returned by `process` (lines 133-156), driven to completion
with race outcome `o` at instant `now`; `req` is the request the future
captured.  On shutdown it returns before storing or publishing anything; on
engine completion it stores the terminal response, updates the status and
publishes the stored response on the completion channel. -/
def Prediction.processFuture (p : Prediction) (req : Request)
    (o : RaceOutcome) (now : ℕ) : Prediction :=
  match o with
  | .shutdown => { p with pendingRun := none }
  | .engine (.ok (output, predict_time)) =>
    let resp := Response.success p.id req output predict_time now
    { p with
      status := .Succeeded
      response := some resp
      complete := p.complete.map fun c => { c with buffer := some resp }
      pendingRun := none }
  | .engine (.error .Canceled) =>
    let resp := Response.canceled p.id req now
    { p with
      status := .Canceled
      response := some resp
      complete := p.complete.map fun c => { c with buffer := some resp }
      pendingRun := none }
  | .engine (.error e) =>
    let resp := Response.error' p.id req e now
    { p with
      status := .Failed
      response := some resp
      complete := p.complete.map fun c => { c with buffer := some resp }
      pendingRun := none }

/-- Possible outcomes of `Prediction::wait_for` for the caller: an immediate
response, an error, suspension on the completion channel, or the panic of the
source's `unwrap` on a missing channel. -/
inductive WaitOutcome where
| ret (r : Response) : WaitOutcome
| err (e : Error) : WaitOutcome
| await : WaitOutcome
| panicked : WaitOutcome

/-- `Prediction::wait_for` (lines 96-116).  Takes `&self`: no field of the
state machine is written.  A buffered value makes `recv_async` resolve
immediately with the published response; an empty buffer suspends. -/
def Prediction.wait_for (p : Prediction) (id : String) : WaitOutcome :=
  if p.id ≠ some id then
    .err .Unknown
  else
    match p.response with
    | some r => .ret r
    | none =>
      if p.status ≠ .Processing then
        .err .AlreadyRunning
      else
        match p.complete with
        | none => .panicked
        | some c =>
          if c.disconnected then
            .err .Unknown
          else
            match c.buffer with
            | some r => .ret r
            | none => .await

/-- `impl Drop for SyncGuard` (lines 217-222): unconditionally send on the
cancellation channel, then reset the slot. -/
def Prediction.guardDrop (p : Prediction) : Prediction :=
  Prediction.reset { p with cancelQueue := p.cancelQueue + 1 }

/-- One public operation on the slot, with the external-collaborator inputs
(validation outcome, race outcome, clock) as parameters. -/
inductive Op where
| init (id : Option String) (req : Request) : Op
| process (validation : Except ValidationErrorSet Unit) : Op
| drive (o : RaceOutcome) (now : ℕ) : Op
| cancel (id : String) : Op
| result : Op
| wait_for (id : String) : Op
| guardDrop : Op

/-- Effect of one operation on the slot state.  A failing operation leaves
the state unchanged; `drive` fires only when a future is pending; `wait_for`
takes `&self` and never changes the state. -/
def Prediction.step (p : Prediction) : Op → Prediction
| .init id req =>
  match p.init id req with
  | .ok q => q
  | .error _ => p
| .process v =>
  match p.process v with
  | .ok q => q
  | .error _ => p
| .drive o now =>
  match p.pendingRun with
  | some req => p.processFuture req o now
  | none => p
| .cancel id =>
  match p.cancel id with
  | .ok q => q
  | .error _ => p
| .result =>
  match p.result with
  | .ok (_, q) => q
  | .error _ => p
| .wait_for _ => p
| .guardDrop => p.guardDrop

/-- States reachable from `setup` by sequences of public operations. -/
inductive Reachable : Prediction → Prop where
| setup : Reachable Prediction.setup
| step (p : Prediction) (op : Op) : Reachable p → Reachable (p.step op)

/-- Invariant maintained by every public operation: the request is stored
exactly while the slot is occupied; a stored response implies a terminal
status; a pending future implies `Processing` or (after an eager cancel)
`Canceled`. -/
def Inv (p : Prediction) : Prop :=
  (p.request.isSome = true ↔ p.status ≠ .Idle)
  ∧ (p.response.isSome = true →
      p.status = .Succeeded ∨ p.status = .Failed ∨ p.status = .Canceled)
  ∧ (p.pendingRun.isSome = true →
      p.status = .Processing ∨ p.status = .Canceled)

/-! Concrete traces used to exercise the operations. -/

/-- Sample request. -/
def reqA : Request :=
  { webhook := none
    webhook_event_filters := none
    output_file_prefix := none
    input := .str "hello" }

/-- Slot after `init(Some "a", reqA)` from a fresh `setup`. -/
def stStart : Prediction := Prediction.setup.step (.init (some "a") reqA)

/-- Slot after a successfully validated `process()`. -/
def stProc : Prediction := stStart.step (.process (.ok ()))

/-- Slot after the engine completed with output `"out"` in `2` seconds at
instant `7`. -/
def stOk : Prediction := stProc.step (.drive (.engine (.ok (.str "out", 2))) 7)

/-- The response the engine-success path stores in `stOk`. -/
def respOk : Response := Response.success (some "a") reqA (.str "out") 2 7

/-- Slot after the engine completed with the `Canceled` error. -/
def stEngCan : Prediction :=
  stProc.step (.drive (.engine (.error .Canceled)) 7)

/-- Slot after an eager `cancel("a")` while `Processing`. -/
def stCan : Prediction := stProc.step (.cancel "a")

/-- Slot after the canceled job's guard was dropped and a second job `"b"`
reached `Processing`: two stale cancel signals are still pending. -/
def stJob2 : Prediction :=
  ((stCan.step .guardDrop).step (.init (some "b") reqA)).step (.process (.ok ()))

/-- Slot back to `Idle` after the ordinary completion `result()` of `stOk`. -/
def stDone : Prediction := stOk.step .result

lemma eq_none_of_not_isSome {α : Type _} {o : Option α}
    (h : ¬ o.isSome = true) : o = none := by
  cases o with
  | none => rfl
  | some a => simp at h

lemma inv_setup : Inv Prediction.setup := by
  simp [Inv, Prediction.setup]

lemma inv_step (p : Prediction) (op : Op) (h : Inv p) : Inv (p.step op) := by
  obtain ⟨h1, h2, h3⟩ := h
  cases op with
  | init id req =>
    by_cases hs : p.status = .Idle
    · have hresp : p.response = none := by
        refine eq_none_of_not_isSome fun hx => ?_
        rcases h2 hx with h' | h' | h' <;> simp [hs] at h'
      have hpend : p.pendingRun = none := by
        refine eq_none_of_not_isSome fun hx => ?_
        rcases h3 hx with h' | h' <;> simp [hs] at h'
      simp [Prediction.step, Prediction.init, hs, Inv, hresp, hpend]
    · have he : p.init id req = .error .AlreadyRunning := by
        simp [Prediction.init, hs]
      simp only [Prediction.step, he]
      exact ⟨h1, h2, h3⟩
  | process v =>
    by_cases hs : p.status = .Starting
    · cases v with
      | error e =>
        have he : p.process (.error e) =
            .error (.Validation (e.fill_loc ["body", "input"])) := by
          simp [Prediction.process, hs]
        simp only [Prediction.step, he]
        exact ⟨h1, h2, h3⟩
      | ok u =>
        have hreq : p.request.isSome = true := h1.mpr (by simp [hs])
        have hresp : p.response = none := by
          refine eq_none_of_not_isSome fun hx => ?_
          rcases h2 hx with h' | h' | h' <;> simp [hs] at h'
        simp [Prediction.step, Prediction.process, hs, Inv, hreq, hresp]
    · have he : p.process v = .error .AlreadyRunning := by
        simp [Prediction.process, hs]
      simp only [Prediction.step, he]
      exact ⟨h1, h2, h3⟩
  | drive o now =>
    cases hp : p.pendingRun with
    | none =>
      simp only [Prediction.step, hp]
      exact ⟨h1, h2, h3⟩
    | some req =>
      have hst : p.status = .Processing ∨ p.status = .Canceled :=
        h3 (by simp [hp])
      have hreq : p.request.isSome = true := by
        refine h1.mpr ?_
        rcases hst with h' | h' <;> simp [h']
      cases o with
      | shutdown =>
        simp only [Prediction.step, hp, Prediction.processFuture]
        exact ⟨by simpa using h1, by simpa using h2, by simp⟩
      | engine r =>
        cases r with
        | ok v =>
          obtain ⟨out, t⟩ := v
          simp [Prediction.step, hp, Prediction.processFuture, Inv, hreq]
        | error e =>
          cases e with
          | Canceled =>
            simp [Prediction.step, hp, Prediction.processFuture, Inv, hreq]
          | Other msg =>
            simp [Prediction.step, hp, Prediction.processFuture, Inv, hreq]
  | cancel id =>
    by_cases hid : p.id = some id
    · by_cases hst : p.status = .Processing
      · have hreq : p.request.isSome = true := h1.mpr (by simp [hst])
        have hresp : p.response = none := by
          refine eq_none_of_not_isSome fun hx => ?_
          rcases h2 hx with h' | h' | h' <;> simp [hst] at h'
        simp [Prediction.step, Prediction.cancel, hid, hst, Inv, hreq, hresp]
      · have he : p.cancel id = .error .AlreadyRunning := by
          simp [Prediction.cancel, hid, hst]
        simp only [Prediction.step, he]
        exact ⟨h1, h2, h3⟩
    · have he : p.cancel id = .error .Unknown := by
        simp [Prediction.cancel, hid]
      simp only [Prediction.step, he]
      exact ⟨h1, h2, h3⟩
  | result =>
    by_cases hsf : p.status = .Succeeded ∨ p.status = .Failed
    · cases hr : p.response with
      | some r =>
        simp [Prediction.step, Prediction.result, hsf, hr, Prediction.reset,
          Inv]
      | none =>
        have he : p.result = .error .NotComplete := by
          simp [Prediction.result, hsf, hr]
        simp only [Prediction.step, he]
        exact ⟨h1, h2, h3⟩
    · have he : p.result = .error .NotComplete := by
        simp [Prediction.result, hsf]
      simp only [Prediction.step, he]
      exact ⟨h1, h2, h3⟩
  | wait_for id =>
    exact ⟨h1, h2, h3⟩
  | guardDrop =>
    simp [Prediction.step, Prediction.guardDrop, Prediction.reset, Inv]

lemma reachable_inv {p : Prediction} (h : Reachable p) : Inv p := by
  induction h with
  | setup => exact inv_setup
  | step q op hq ih => exact inv_step q op ih

lemma reachable_stStart : Reachable stStart :=
  Reachable.step _ _ Reachable.setup

lemma reachable_stProc : Reachable stProc :=
  Reachable.step _ _ reachable_stStart

lemma reachable_stOk : Reachable stOk :=
  Reachable.step _ _ reachable_stProc

lemma reachable_stEngCan : Reachable stEngCan :=
  Reachable.step _ _ reachable_stProc

lemma reachable_stCan : Reachable stCan :=
  Reachable.step _ _ reachable_stProc

lemma reachable_stJob2 : Reachable stJob2 :=
  Reachable.step _ _ (Reachable.step _ _ (Reachable.step _ _ reachable_stCan))

lemma reachable_stDone : Reachable stDone :=
  Reachable.step _ _ reachable_stOk

/-! Claim theorems. -/

/-- C1 counterexample: the reachable state `stEngCan` has the terminal status
`Canceled` with a stored response, yet `result()` fails with `NotComplete`
instead of returning the response and resetting: the source's guard admits
only `Succeeded | Failed`. -/
theorem c1_counterexample :
    Reachable stEngCan ∧ stEngCan.status = .Canceled ∧
      stEngCan.response.isSome = true ∧
      stEngCan.result = .error .NotComplete :=
  ⟨reachable_stEngCan, rfl, rfl, rfl⟩

/-- C1 (amended): `result()` returns the stored response and resets the slot
to `Idle` exactly when the status is `Succeeded` or `Failed` (and a response
is stored); for every other status — `Canceled` included — it fails with
`NotComplete`. -/
theorem c1_result_characterization (p : Prediction) :
    (∀ r, p.response = some r →
      (p.status = .Succeeded ∨ p.status = .Failed) →
      p.result = .ok (r, p.reset))
    ∧ (p.status ≠ .Succeeded ∧ p.status ≠ .Failed →
      p.result = .error .NotComplete) := by
  constructor
  · intro r hr hs
    simp [Prediction.result, hs, hr]
  · rintro ⟨h1, h2⟩
    simp [Prediction.result, h1, h2]

/-- C1 witness: the amended characterization applied at the concrete states
`stOk` (Succeeded, returns and resets) and `stEngCan` (Canceled, rejected). -/
theorem c1_result_characterization_witness :
    stOk.result = .ok (respOk, stOk.reset) ∧
      stEngCan.result = .error .NotComplete :=
  ⟨(c1_result_characterization stOk).1 respOk rfl (Or.inl rfl),
   (c1_result_characterization stEngCan).2 ⟨by decide, by decide⟩⟩

/-- C2 counterexample: the concrete trace init → process → cancel →
guard-drop → init → process reaches `stJob2`, where the second job is
`Processing` while two cancel signals sent during the first job's lifetime
are still pending: `reset` (lines 185-191) never recreates or drains the
cancellation channel, so a stale cancel signal can be observed by the engine
while it runs the next job. -/
theorem c2_counterexample :
    Reachable stJob2 ∧ stJob2.status = .Processing ∧
      stJob2.cancelQueue = 2 ∧
      (stCan.step .guardDrop).status = .Idle ∧
      (stCan.step .guardDrop).cancelQueue = 2 :=
  ⟨reachable_stJob2, rfl, rfl, rfl, rfl⟩

/-- C2 (amended): every reset returns the machine to
`{status: Idle, id: None, request: None, response: None, complete: None}`,
but the cancellation channel is neither recreated nor cleared: the pending
cancel signals survive a reset unchanged (and the guard teardown even adds
one), so a cancel signal sent during a previous job can still be observed
during the next job. -/
theorem c2_reset_characterization (p : Prediction) :
    p.reset.status = .Idle ∧ p.reset.id = none ∧ p.reset.request = none ∧
      p.reset.response = none ∧ p.reset.complete = none ∧
      p.reset.cancelQueue = p.cancelQueue ∧
      p.guardDrop.cancelQueue = p.cancelQueue + 1 :=
  ⟨rfl, rfl, rfl, rfl, rfl, rfl, rfl⟩

/-- C3 counterexample: `stDone` is the reachable state after a submit that
completed ordinarily (slot back to `Idle`, no pending cancel signal), yet
releasing the guard still performs a state change: its teardown sends a
cancellation signal (`cancelQueue` grows to 1), because `Drop for SyncGuard`
(lines 217-222) runs unconditionally, not only on abnormal exit. -/
theorem c3_counterexample :
    Reachable stDone ∧ stDone.status = .Idle ∧ stDone.cancelQueue = 0 ∧
      stDone.guardDrop.cancelQueue = 1 ∧ stDone.guardDrop ≠ stDone :=
  ⟨reachable_stDone, rfl, rfl, rfl,
    fun h => absurd (congrArg Prediction.cancelQueue h) (by decide)⟩

/-- C3 (amended): the guard's teardown unconditionally sends a cancellation
signal and force-resets the slot to `Idle` on every exit, ordinary completion
as well as abnormal abandonment. -/
theorem c3_guard_drop_characterization (p : Prediction) :
    p.guardDrop = { p.reset with cancelQueue := p.cancelQueue + 1 } :=
  rfl

/-- C4 counterexample: in the reachable state `stOk` the status is
`Succeeded` yet `request` is still `Some` (the source clears it only on
reset, not on the terminal transition), and in the reachable state `stCan`
the status is the terminal `Canceled` yet `response` is `None` (the eager
cancel path stores no response). -/
theorem c4_counterexample :
    (Reachable stOk ∧ stOk.status = .Succeeded ∧ stOk.request = some reqA)
    ∧ (Reachable stCan ∧ stCan.status = .Canceled ∧ stCan.response = none) :=
  ⟨⟨reachable_stOk, rfl, rfl⟩, ⟨reachable_stCan, rfl, rfl⟩⟩

/-- C4 (amended): in every state reachable by the public operations,
`request` is `Some` iff the status is not `Idle` (so also throughout the
terminal statuses, until reset), and `response = Some` implies the status is
terminal — the converse fails on the eager-cancel path. -/
theorem c4_field_invariants (p : Prediction) (h : Reachable p) :
    (p.request.isSome = true ↔ p.status ≠ .Idle)
    ∧ (p.response.isSome = true →
      p.status = .Succeeded ∨ p.status = .Failed ∨ p.status = .Canceled) :=
  ⟨(reachable_inv h).1, (reachable_inv h).2.1⟩

/-- C4 witness: the amended invariant applied at the concrete reachable state
`stOk`. -/
theorem c4_field_invariants_witness :
    (stOk.request.isSome = true ↔ stOk.status ≠ .Idle)
    ∧ (stOk.response.isSome = true →
      stOk.status = .Succeeded ∨ stOk.status = .Failed ∨
        stOk.status = .Canceled) :=
  c4_field_invariants stOk reachable_stOk

/-- C5: from status `Starting`, a failing engine validation makes `process`
return a `Validation` error annotated with the location path
`["body", "input"]`, and leaves the state machine entirely unchanged: status
stays `Starting`, no completion channel is created and no response is
stored. -/
theorem c5_validation_failure (p : Prediction) (e : ValidationErrorSet)
    (h : p.status = .Starting) :
    p.process (.error e) =
      .error (.Validation { e with loc := ["body", "input"] })
    ∧ p.step (.process (.error e)) = p := by
  have hp : p.process (.error e) =
      .error (.Validation (e.fill_loc ["body", "input"])) := by
    simp [Prediction.process, h]
  exact ⟨hp, by simp [Prediction.step, hp]⟩

/-- C5 witness: a concrete failing validation at the concrete `Starting`
state `stStart`. -/
theorem c5_validation_failure_witness :
    stStart.process (.error { errors := ["bad input"], loc := [] }) =
      .error (.Validation { errors := ["bad input"], loc := ["body", "input"] })
    ∧ stStart.step (.process (.error { errors := ["bad input"], loc := [] })) =
      stStart :=
  c5_validation_failure stStart { errors := ["bad input"], loc := [] } rfl

/-- C6: `cancel(id)` fails with `Unknown` on an id mismatch regardless of
status; with a matching id it fails with `AlreadyRunning` unless the status
is `Processing`; from `Processing` it sends one signal on the cancellation
channel and eagerly sets the status to `Canceled`, succeeding. -/
theorem c6_cancel_characterization (p : Prediction) (id : String) :
    (p.id ≠ some id → p.cancel id = .error .Unknown)
    ∧ (p.id = some id → p.status ≠ .Processing →
      p.cancel id = .error .AlreadyRunning)
    ∧ (p.id = some id → p.status = .Processing →
      p.cancel id =
        .ok { p with
              cancelQueue := p.cancelQueue + 1
              status := .Canceled }) := by
  refine ⟨fun h => ?_, fun h1 h2 => ?_, fun h1 h2 => ?_⟩
  · simp [Prediction.cancel, h]
  · simp [Prediction.cancel, h1, h2]
  · simp [Prediction.cancel, h1, h2]

/-- C6 witness: the three branches exercised at concrete states — a
mismatched id on a fresh slot, a matching id while `Starting`, and a matching
id while `Processing`. -/
theorem c6_cancel_characterization_witness :
    Prediction.setup.cancel "z" = .error .Unknown
    ∧ stStart.cancel "a" = .error .AlreadyRunning
    ∧ stProc.cancel "a" =
      .ok { stProc with
            cancelQueue := stProc.cancelQueue + 1
            status := .Canceled } :=
  ⟨(c6_cancel_characterization Prediction.setup "z").1 (by decide),
   (c6_cancel_characterization stStart "a").2.1 rfl (by decide),
   (c6_cancel_characterization stProc "a").2.2 rfl rfl⟩

/-- C7: `wait_for(id)` fails with `Unknown` on an id mismatch; returns a
cached response immediately; otherwise fails with `AlreadyRunning` when the
status is not `Processing`; with a disconnected completion channel fails with
`Unknown`; otherwise awaits the completion channel (resolving immediately
with the published response if one is already buffered); and it never resets
the slot or mutates the state machine. -/
theorem c7_wait_for_characterization (p : Prediction) (id : String) :
    (p.id ≠ some id → p.wait_for id = .err .Unknown)
    ∧ (∀ r, p.id = some id → p.response = some r → p.wait_for id = .ret r)
    ∧ (p.id = some id → p.response = none → p.status ≠ .Processing →
      p.wait_for id = .err .AlreadyRunning)
    ∧ (∀ c, p.id = some id → p.response = none → p.status = .Processing →
      p.complete = some c → c.disconnected = true →
      p.wait_for id = .err .Unknown)
    ∧ (∀ c r, p.id = some id → p.response = none → p.status = .Processing →
      p.complete = some c → c.disconnected = false → c.buffer = some r →
      p.wait_for id = .ret r)
    ∧ (∀ c, p.id = some id → p.response = none → p.status = .Processing →
      p.complete = some c → c.disconnected = false → c.buffer = none →
      p.wait_for id = .await)
    ∧ p.step (.wait_for id) = p := by
  refine ⟨fun h => ?_, fun r h1 h2 => ?_, fun h1 h2 h3 => ?_,
    fun c h1 h2 h3 h4 h5 => ?_, fun c r h1 h2 h3 h4 h5 h6 => ?_,
    fun c h1 h2 h3 h4 h5 h6 => ?_, rfl⟩
  · simp [Prediction.wait_for, h]
  · simp [Prediction.wait_for, h1, h2]
  · simp [Prediction.wait_for, h1, h2, h3]
  · simp [Prediction.wait_for, h1, h2, h3, h4, h5]
  · simp [Prediction.wait_for, h1, h2, h3, h4, h5, h6]
  · simp [Prediction.wait_for, h1, h2, h3, h4, h5, h6]

/-- C7 witness: the branches exercised at concrete states — mismatched id on
a fresh slot, cached response at `stOk`, non-`Processing` at `stStart`,
awaiting at `stProc`, and the unchanged-state step at `stProc`. -/
theorem c7_wait_for_characterization_witness :
    Prediction.setup.wait_for "z" = .err .Unknown
    ∧ stOk.wait_for "a" = .ret respOk
    ∧ stStart.wait_for "a" = .err .AlreadyRunning
    ∧ stProc.wait_for "a" = .await
    ∧ stProc.step (.wait_for "a") = stProc :=
  ⟨(c7_wait_for_characterization Prediction.setup "z").1 (by decide),
   (c7_wait_for_characterization stOk "a").2.1 respOk rfl rfl,
   (c7_wait_for_characterization stStart "a").2.2.1 rfl rfl (by decide),
   (c7_wait_for_characterization stProc "a").2.2.2.2.2.1
     { disconnected := false, buffer := none } rfl rfl rfl rfl rfl rfl,
   (c7_wait_for_characterization stProc "a").2.2.2.2.2.2⟩

/-- C8: `init(id, request)` succeeds exactly from `Idle`, storing the id and
the request and transitioning to `Starting`; from every other status it fails
with `AlreadyRunning` and changes no field.  Single-flight follows: the slot
stores at most one id/request/status at a time by construction, and `init`
refuses an occupied slot. -/
theorem c8_init_characterization (p : Prediction) (id : Option String)
    (req : Request) :
    (p.status = .Idle →
      p.init id req =
        .ok { p with
              id := id
              request := some req
              status := .Starting })
    ∧ (p.status ≠ .Idle →
      p.init id req = .error .AlreadyRunning ∧ p.step (.init id req) = p) := by
  refine ⟨fun h => ?_, fun h => ?_⟩
  · simp [Prediction.init, h]
  · have he : p.init id req = .error .AlreadyRunning := by
      simp [Prediction.init, h]
    exact ⟨he, by simp [Prediction.step, he]⟩

/-- C8 witness: `init` succeeding on a fresh slot and failing (without state
change) on the occupied `Processing` slot `stProc`. -/
theorem c8_init_characterization_witness :
    Prediction.setup.init (some "a") reqA =
      .ok { Prediction.setup with
            id := some "a"
            request := some reqA
            status := .Starting }
    ∧ stProc.init (some "b") reqA = .error .AlreadyRunning
    ∧ stProc.step (.init (some "b") reqA) = stProc :=
  ⟨(c8_init_characterization Prediction.setup (some "a") reqA).1 rfl,
   ((c8_init_characterization stProc (some "b") reqA).2 (by decide)).1,
   ((c8_init_characterization stProc (some "b") reqA).2 (by decide)).2⟩

/-- C9: when the shutdown signal wins the race inside the future returned by
`process`, the future exits without storing a response, without changing the
status (it stays whatever it was, normally `Processing`), and without
publishing anything on the completion channel; no other field changes
either. -/
theorem c9_shutdown_race (p : Prediction) (req : Request) (now : ℕ) :
    (p.processFuture req .shutdown now).status = p.status
    ∧ (p.processFuture req .shutdown now).response = p.response
    ∧ (p.processFuture req .shutdown now).complete = p.complete
    ∧ (p.processFuture req .shutdown now).request = p.request
    ∧ (p.processFuture req .shutdown now).id = p.id
    ∧ (p.processFuture req .shutdown now).cancelQueue = p.cancelQueue :=
  ⟨rfl, rfl, rfl, rfl, rfl, rfl⟩

/-- C10 counterexample: not every field left unset by the constructors
defaults to absent — `Response::success` (via `Default for Response`) sets
`started_at` and `completed_at` to the construction instant, not to
absent. -/
theorem c10_counterexample :
    (Response.success (some "a") reqA (.str "out") 2 7).started_at = some 7
    ∧ (Response.success (some "a") reqA (.str "out") 2 7).started_at ≠ none
    ∧ (Response.canceled (some "a") reqA 7).completed_at ≠ none :=
  ⟨rfl, by decide, by decide⟩

/-- C10 (amended): full field characterization of the three constructors —
`success` yields `Succeeded`, echoes the input, stores the output and records
the `predict_time` metric in seconds; `error` yields `Failed` with the
error's textual message and no output; `canceled` yields `Canceled` with no
output and no error text; all other fields default to absent/empty except
`started_at` and `completed_at`, which default to the construction
instant. -/
theorem c10_response_constructors (id : Option String) (req : Request)
    (output : Value) (predict_time : ℚ) (e : RunnerError) (now : ℕ) :
    Response.success id req output predict_time now =
      { input := some req.input, output := some output, id := id,
        version := none, created_at := none, started_at := some now,
        completed_at := some now, logs := "", status := .Succeeded,
        error := none,
        metrics := some [("predict_time", Value.num predict_time)] }
    ∧ Response.error' id req e now =
      { input := some req.input, output := none, id := id, version := none,
        created_at := none, started_at := some now, completed_at := some now,
        logs := "", status := .Failed, error := some e.toMessage,
        metrics := none }
    ∧ Response.canceled id req now =
      { input := some req.input, output := none, id := id, version := none,
        created_at := none, started_at := some now, completed_at := some now,
        logs := "", status := .Canceled, error := none, metrics := none } :=
  ⟨rfl, rfl, rfl⟩

end CogRust
